import Mathlib

/-!
Verification of the single-file Flask chat relay (`app.py`).

The program has two pure functions, `build_system_prompt` and
`decoding_params`, and one request handler, `api_chat`.  We embed them
shallowly:

* Python integers become `ℤ`.
* The temperature is computed in Python in binary floating point and then
  passed through `round(·, 2)`.  For every reachable input the clamped
  intensity is one of `0..10`, the exact value `0.2 + (c/10)*0.8` has at
  most two decimal digits, and the floating-point computation rounds to
  exactly that decimal value, so the embedding uses exact rationals `ℚ`
  together with an explicit two-decimal rounding function.
* JSON values (as produced by `request.get_json`) become the inductive
  `JValue`; Python truthiness, `dict.get`, `str.strip` and `int(·)` are
  modelled explicitly, including the exceptions they raise.  Exceptions
  are identified by their class name; non-integral JSON numbers and
  non-ASCII whitespace/digits do not occur in any claim and are left out
  of the JSON model.
* The external completion capability (`client.chat.completions.create`
  plus the extraction of `resp.choices[0].message.content`) is a
  parameter `complete`; it either returns the reply text or raises, and
  the handler counts how many times it is invoked.
-/

/-- `max(0, min(10, i))` from `app.py` lines 156 and 184. -/
def clampZ (i : ℤ) : ℤ := max 0 (min 10 i)

/-- Python `round(q, 2)` on the values reachable here: round to the nearest
hundredth.  (Python uses round-half-even; every value this program rounds
is an exact multiple of 1/100, so no tie ever arises and rounding half up
agrees.) -/
def round2 (q : ℚ) : ℚ := ((q * 100 + 1/2).floor : ℚ) / 100

/-- The `tone_table` dict of `build_system_prompt` (lines 157–169),
as an association list in source order. -/
def tone_table : List (ℤ × String) :=
  [ (0, "完全中性、專業、無任何攻擊性。"),
    (1, "極度婉轉、避免負面情緒。"),
    (2, "禮貌克制，清楚表達立場。"),
    (3, "稍微直白，輕微吐槽但不人身攻擊。"),
    (4, "直接表達不滿，仍保持尊重。"),
    (5, "中度尖銳，點出問題並提出具體要求。"),
    (6, "不太客氣，語氣帶刺但理性。"),
    (7, "明顯不悅，語言強硬，可用輕微髒話。"),
    (8, "非常強硬，允許短促髒話但避免低俗。"),
    (9, "極為尖銳，允許明顯髒話但避免人身貶損。"),
    (10, "最高強度：極度尖銳、可用粗話，但不得出現仇恨/歧視/暴力煽動。") ]

/-- The `guardrails` string (lines 170–173); Python concatenates the two
adjacent literals without a separator. -/
def guardrails : String :=
  "無論風格強度為何，都必須避免仇恨言論、歧視、針對弱勢族群的人身攻擊、或任何違法、暴力煽動的內容。允許一般粗話與非仇恨的強烈語氣。"

/-- `tone_table.get(style_intensity, tone_table[5])` (line 177): dict
lookup with the entry for 5 as the default. -/
def tone_lookup (c : ℤ) : String :=
  ((tone_table.lookup c).getD ((tone_table.lookup 5).getD ""))

/-- `build_system_prompt` (lines 155–180): clamp the intensity, then
compose the f-string of lines 174–180. -/
def build_system_prompt (style_intensity : ℤ) : String :=
  let c := clampZ style_intensity
  "你是一個能依照使用者要求調整語氣強度的中文助理。\n"
    ++ "目標語氣強度（0–10）：" ++ toString c ++ "。\n"
    ++ "語氣描述：" ++ tone_lookup c ++ "\n"
    ++ "安全規範：" ++ guardrails ++ "\n"
    ++ "回覆時請以繁體中文輸出；精煉、直接，並根據情境提供可行的具體建議或可直接貼上的文字草稿。"

/-- The dict returned by `decoding_params` (lines 183–186).  Note the
source clamps the intensity for the temperature but tests the *raw*
intensity in `max_tokens = 256 if style_intensity <= 5 else 512`. -/
structure DecodingParams where
  temperature : ℚ
  max_tokens : ℤ
  deriving Repr, DecidableEq

/-- `decoding_params` (lines 183–186). -/
def decoding_params (style_intensity : ℤ) : DecodingParams :=
  { temperature := round2 (2/10 + ((clampZ style_intensity : ℚ) / 10) * (8/10)),
    max_tokens := if style_intensity ≤ 5 then 256 else 512 }

/-- `begWith t s` is true iff `t` is an initial segment of `s`. -/
def begWith : List Char → List Char → Bool
  | [], _ => true
  | _ :: _, [] => false
  | c :: cs, d :: ds => c == d && begWith cs ds

/-- `hasSub t s` is true iff `t` occurs contiguously somewhere in `s`. -/
def hasSub : List Char → List Char → Bool
  | t, [] => t.isEmpty
  | t, d :: ds => begWith t (d :: ds) || hasSub t ds

/-- Substring test used to state prompt-containment claims. -/
def strContains (s t : String) : Bool :=
  hasSub t.toList s.toList

/-! ## JSON values and the Python primitives used by `api_chat`

`request.get_json(force=True, silent=True)` yields `None` (modelled by
`Option.none`) for an absent or unparsable body, and otherwise any JSON
value.  Non-integral JSON numbers (floats) occur in no claim and are left
out of the model; likewise only ASCII whitespace is stripped and only
ASCII digits are accepted by `int(·)` (Python also accepts some Unicode
forms, which no claim involves).  An exception that escapes the handler
is recorded by its class name only, since Flask then produces its generic
500 page rather than the handler's JSON. -/

inductive JValue where
  | jnull
  | jbool (b : Bool)
  | jint (n : ℤ)
  | jstr (s : String)
  | jarr (xs : List JValue)
  | jobj (fields : List (String × JValue))

/-- Python truthiness of a JSON value. -/
def JValue.truthy : JValue → Bool
  | .jnull => false
  | .jbool b => b
  | .jint n => n != 0
  | .jstr s => !s.isEmpty
  | .jarr xs => !xs.isEmpty
  | .jobj fs => !fs.isEmpty

/-- Python `v or d`. -/
def pyOr (v d : JValue) : JValue := if v.truthy then v else d

/-- `data or {}` applied to the result of `request.get_json` (line 196). -/
def orEmptyObj (body : Option JValue) : JValue :=
  match body with
  | none => .jobj []
  | some v => pyOr v (.jobj [])

/-- `data.get(k)`: `None` (here `jnull`) when the key is absent;
raises `AttributeError` when `data` is not a dict. -/
def pyGet (data : JValue) (k : String) : Except String JValue :=
  match data with
  | .jobj fs => .ok ((fs.lookup k).getD .jnull)
  | _ => .error "AttributeError"

/-- The six ASCII characters stripped by Python `str.strip()`. -/
def isPySpace (c : Char) : Bool :=
  c == ' ' || c == '\t' || c == '\n' || c == '\r' || c == '\x0b' || c == '\x0c'

/-- Strip leading and trailing whitespace from a character list. -/
def stripChars (l : List Char) : List Char :=
  ((l.dropWhile isPySpace).reverse.dropWhile isPySpace).reverse

/-- Python `v.strip()`: defined on strings, raises `AttributeError`
on any other value. -/
def pyStrip (v : JValue) : Except String String :=
  match v with
  | .jstr s => .ok ⟨stripChars s.toList⟩
  | _ => .error "AttributeError"

/-- Digits of a Python integer literal after the sign: decimal digits with
single underscores allowed between digits. -/
def pyDigits (acc : ℕ) : List Char → Option ℕ
  | [] => some acc
  | '_' :: c :: rest =>
      if c.isDigit then pyDigits (acc * 10 + (c.toNat - 48)) rest else none
  | c :: rest =>
      if c.isDigit then pyDigits (acc * 10 + (c.toNat - 48)) rest else none

/-- Python `int(s)` for a string `s`: strip whitespace, optional sign,
then a non-empty digit sequence; `none` when the conversion raises
`ValueError`. -/
def pyIntOfString (s : String) : Option ℤ :=
  match stripChars s.toList with
  | '-' :: c :: rest =>
      if c.isDigit then (pyDigits (c.toNat - 48) rest).map (fun n => -(n : ℤ)) else none
  | '+' :: c :: rest =>
      if c.isDigit then (pyDigits (c.toNat - 48) rest).map (fun n => (n : ℤ)) else none
  | c :: rest =>
      if c.isDigit then (pyDigits (c.toNat - 48) rest).map (fun n => (n : ℤ)) else none
  | [] => none

/-- Python `int(v)` on the JSON values of the model: integers are
returned, booleans convert to 0/1, strings are parsed (raising
`ValueError` on failure), and other values raise `TypeError`. -/
def pyInt (v : JValue) : Except String ℤ :=
  match v with
  | .jint n => .ok n
  | .jbool b => .ok (if b then 1 else 0)
  | .jstr s =>
      match pyIntOfString s with
      | some n => .ok n
      | none => .error "ValueError"
  | _ => .error "TypeError"

/-- Line 197: `(data.get("message") or "").strip()`. -/
def parseMessage (data : JValue) : Except String String :=
  (pyGet data "message").bind (fun m => pyStrip (pyOr m (.jstr "")))

/-- Line 198: `int(data.get("style") or 0)`. -/
def parseStyle (data : JValue) : Except String ℤ :=
  (pyGet data "style").bind (fun v => pyInt (pyOr v (.jint 0)))

/-- The JSON body of the 200 response (lines 216–222). -/
structure ChatOk where
  reply : String
  model : String
  temperature : ℚ
  max_tokens : ℤ
  style : ℤ
  deriving Repr, DecidableEq

/-- Outcome of one invocation of the `/api/chat` handler. -/
inductive ChatResult where
  /-- HTTP 200 with the success JSON body. -/
  | ok (r : ChatOk)
  /-- HTTP 400 `{"error": msg}` (line 200). -/
  | clientError (msg : String)
  /-- HTTP 500 `{"error": str(e)}` (line 224). -/
  | serverError (msg : String)
  /-- An exception escaped the handler (Flask then serves its own
  generic 500 page); recorded by exception class name. -/
  | uncaught (exn : String)
  deriving Repr, DecidableEq

/-- `api_chat` (lines 194–224).  `body` is the result of
`request.get_json(force=True, silent=True)`; `complete` is the external
completion capability (the `client.chat.completions.create` call plus
the extraction of `resp.choices[0].message.content`), taking the system
prompt, the user message, the temperature and the token budget, and
returning the reply text or raising with message `e`.  The second
component counts the invocations of `complete`. -/
def api_chat (model : String) (body : Option JValue)
    (complete : String → String → ℚ → ℤ → Except String String) :
    ChatResult × ℕ :=
  let data := orEmptyObj body
  match parseMessage data with
  | .error e => (.uncaught e, 0)
  | .ok user_msg =>
    match parseStyle data with
    | .error e => (.uncaught e, 0)
    | .ok style =>
      if user_msg = "" then (.clientError "message is required", 0)
      else
        let decode := decoding_params style
        match complete (build_system_prompt style) user_msg
            decode.temperature decode.max_tokens with
        | .error e => (.serverError e, 1)
        | .ok reply =>
          (.ok { reply := reply, model := model,
                 temperature := decode.temperature,
                 max_tokens := decode.max_tokens, style := style }, 1)

/-! ## Helper lemmas -/

/-- The `Batteries` floor on `ℚ` is the `Mathlib` floor. -/
lemma rat_floor_eq_intFloor (q : ℚ) : q.floor = ⌊q⌋ := rfl

/-- Rounding to hundredths is exact on exact hundredths. -/
lemma round2_eq_div (q : ℚ) (n : ℤ) (h : q * 100 = (n : ℚ)) :
    round2 q = (n : ℚ) / 100 := by
  have hf : (q * 100 + 1/2).floor = n := by
    rw [rat_floor_eq_intFloor, h, Int.floor_int_add]
    norm_num
  rw [round2, hf]

/-- Closed form of the temperature computed by `decoding_params`. -/
lemma temperature_eq (i : ℤ) :
    (decoding_params i).temperature = ((20 + 8 * clampZ i : ℤ) : ℚ) / 100 := by
  show round2 _ = _
  apply round2_eq_div
  push_cast
  ring

lemma clampZ_idem (i : ℤ) : clampZ (clampZ i) = clampZ i := by
  simp only [clampZ]; omega

lemma clampZ_nonneg (i : ℤ) : 0 ≤ clampZ i := by simp only [clampZ]; omega

lemma clampZ_le_ten (i : ℤ) : clampZ i ≤ 10 := by simp only [clampZ]; omega

lemma clampZ_of_mem (i : ℤ) (h0 : 0 ≤ i) (h1 : i ≤ 10) : clampZ i = i := by
  simp only [clampZ]; omega

lemma clampZ_mono {i j : ℤ} (h : i ≤ j) : clampZ i ≤ clampZ j := by
  simp only [clampZ]; omega

/-! ## The claims -/

/-- C1: for every integer i in [0,10], `decoding_params` returns
temperature round(0.2 + 0.08·i, 2) — written here with exact rationals as
`round2 (2/10 + 8/100 * i)` — and max_tokens 256 when i ≤ 5, else 512. -/
theorem C1_decoding_params_in_range (i : ℤ) (h0 : 0 ≤ i) (h1 : i ≤ 10) :
    (decoding_params i).temperature = round2 (2/10 + 8/100 * (i : ℚ)) ∧
    (decoding_params i).max_tokens = (if i ≤ 5 then 256 else 512) := by
  refine ⟨?_, rfl⟩
  rw [temperature_eq, clampZ_of_mem i h0 h1,
    round2_eq_div _ (20 + 8 * i) (by push_cast; ring)]

/-- Witness for C1 at i = 3. -/
theorem C1_witness :
    (0:ℤ) ≤ 3 ∧ (3:ℤ) ≤ 10 ∧
      ((decoding_params 3).temperature = round2 (2/10 + 8/100 * ((3:ℤ) : ℚ)) ∧
       (decoding_params 3).max_tokens = (if (3:ℤ) ≤ 5 then 256 else 512)) :=
  ⟨by decide, by decide, C1_decoding_params_in_range 3 (by decide) (by decide)⟩

/-- C2: for every integer i outside [0,10], the parameter mapper
(`build_system_prompt` together with `decoding_params`) produces exactly
the same system prompt, temperature and max_tokens as it does for
clamp(i, 0, 10). -/
theorem C2_clamp_equiv (i : ℤ) (h : i < 0 ∨ 10 < i) :
    build_system_prompt i = build_system_prompt (clampZ i) ∧
    decoding_params i = decoding_params (clampZ i) := by
  refine ⟨?_, ?_⟩
  · simp only [build_system_prompt, clampZ_idem]
  · simp only [decoding_params, clampZ_idem]
    rcases h with h | h
    · rw [if_pos (show i ≤ 5 by omega),
        if_pos (show clampZ i ≤ 5 by simp only [clampZ]; omega)]
    · rw [if_neg (show ¬ i ≤ 5 by omega),
        if_neg (show ¬ clampZ i ≤ 5 by simp only [clampZ]; omega)]

/-- Witness for C2 at i = -5. -/
theorem C2_witness :
    ((-5:ℤ) < 0 ∨ (10:ℤ) < -5) ∧
    (build_system_prompt (-5) = build_system_prompt (clampZ (-5)) ∧
     decoding_params (-5) = decoding_params (clampZ (-5))) :=
  ⟨Or.inl (by decide), C2_clamp_equiv (-5) (Or.inl (by decide))⟩

/-- C3 (amended): for every request whose message is empty or
whitespace-only after trimming, and whose style field parses, `api_chat`
returns HTTP 400 with error text "message is required" and performs no
call to the external completion capability.  (When the style field fails
to parse, line 198 raises before the validation check; see the
counterexample.) -/
theorem C3_blank_message_400 (model : String) (body : Option JValue)
    (complete : String → String → ℚ → ℤ → Except String String)
    (hm : parseMessage (orEmptyObj body) = Except.ok "")
    (s : ℤ) (hs : parseStyle (orEmptyObj body) = Except.ok s) :
    api_chat model body complete = (ChatResult.clientError "message is required", 0) := by
  simp only [api_chat, hm, hs]
  rfl

/-- C3 fails as stated: the body with empty message and style "abc"
reaches the uncaught ValueError of `int("abc")` on line 198 — which runs
before the message check on line 199 — so the handler does not return the
400 validation error. -/
theorem C3_counterexample :
    api_chat "gpt-4o-mini"
      (some (JValue.jobj [("message", JValue.jstr ""), ("style", JValue.jstr "abc")]))
      (fun _ _ _ _ => Except.ok "hi") = (ChatResult.uncaught "ValueError", 0) ∧
    (api_chat "gpt-4o-mini"
      (some (JValue.jobj [("message", JValue.jstr ""), ("style", JValue.jstr "abc")]))
      (fun _ _ _ _ => Except.ok "hi")).1 ≠ ChatResult.clientError "message is required" :=
  ⟨by decide, by decide⟩

/-- Witness for C3 on the whitespace-only message "  " with no style field. -/
theorem C3_witness :
    parseMessage (orEmptyObj (some (JValue.jobj [("message", JValue.jstr "  ")]))) = Except.ok "" ∧
    parseStyle (orEmptyObj (some (JValue.jobj [("message", JValue.jstr "  ")]))) = Except.ok 0 ∧
    api_chat "gpt-4o-mini" (some (JValue.jobj [("message", JValue.jstr "  ")]))
      (fun _ _ _ _ => Except.ok "hi") = (ChatResult.clientError "message is required", 0) :=
  ⟨rfl, rfl, C3_blank_message_400 "gpt-4o-mini" _ _ rfl 0 rfl⟩

/-- C4 (amended): the style field is parsed via `int(style or 0)`: a
missing or falsy value defaults to 0 and never fails, an integer value
parses to itself, but a truthy value that `int` cannot convert (for
example a non-numeric non-empty string) raises ValueError, so parsing the
style field can make the request error out. -/
theorem C4_style_parse (fs : List (String × JValue)) :
    (fs.lookup "style" = none → parseStyle (JValue.jobj fs) = Except.ok 0) ∧
    (∀ v, fs.lookup "style" = some v → v.truthy = false →
      parseStyle (JValue.jobj fs) = Except.ok 0) ∧
    (∀ n, fs.lookup "style" = some (JValue.jint n) →
      parseStyle (JValue.jobj fs) = Except.ok n) ∧
    (∀ s, fs.lookup "style" = some (JValue.jstr s) → s ≠ "" → pyIntOfString s = none →
      parseStyle (JValue.jobj fs) = Except.error "ValueError") := by
  refine ⟨?_, ?_, ?_, ?_⟩
  · intro h
    simp [parseStyle, pyGet, h, pyOr, JValue.truthy, pyInt, Except.bind]
  · intro v h hv
    simp [parseStyle, pyGet, h, pyOr, hv, pyInt, Except.bind]
  · intro n h
    by_cases hn : n = 0
    · subst hn; simp [parseStyle, pyGet, h, pyOr, JValue.truthy, pyInt, Except.bind]
    · simp [parseStyle, pyGet, h, pyOr, JValue.truthy, hn, pyInt, Except.bind]
  · intro s h hne hps
    have hE : s.isEmpty = false := by
      rw [Bool.eq_false_iff]
      intro hE
      exact hne ((String.isEmpty_iff s).mp hE)
    simp [parseStyle, pyGet, h, pyOr, JValue.truthy, hE, pyInt, hps, Except.bind]

/-- C4 fails as stated: a request with message "hello" and the
non-integer style "abc" errors out with an uncaught ValueError instead of
defaulting the style to 0, and the external capability is never called. -/
theorem C4_counterexample :
    api_chat "gpt-4o-mini"
      (some (JValue.jobj [("message", JValue.jstr "hello"), ("style", JValue.jstr "abc")]))
      (fun _ _ _ _ => Except.ok "re") = (ChatResult.uncaught "ValueError", 0) ∧
    (api_chat "gpt-4o-mini"
      (some (JValue.jobj [("message", JValue.jstr "hello"), ("style", JValue.jstr "abc")]))
      (fun _ _ _ _ => Except.ok "re")).2 = 0 :=
  ⟨by decide, by decide⟩

/-- Witness for C4 on an object with no style field. -/
theorem C4_witness :
    List.lookup "style" ([] : List (String × JValue)) = none ∧
    parseStyle (JValue.jobj []) = Except.ok 0 :=
  ⟨rfl, (C4_style_parse []).1 rfl⟩

/-- C5: for every request with a non-empty trimmed message and a parsable
style, if the external completion capability raises with message e, then
`api_chat` returns HTTP 500 whose error text is exactly e, after exactly
one call to the capability; no reply is fabricated and the exception does
not escape the handler. -/
theorem C5_upstream_error_propagation (model : String) (body : Option JValue)
    (complete : String → String → ℚ → ℤ → Except String String)
    (m : String) (s : ℤ) (e : String)
    (hm : parseMessage (orEmptyObj body) = Except.ok m) (hm0 : ¬ m = "")
    (hs : parseStyle (orEmptyObj body) = Except.ok s)
    (hc : complete (build_system_prompt s) m (decoding_params s).temperature
        (decoding_params s).max_tokens = Except.error e) :
    api_chat model body complete = (ChatResult.serverError e, 1) := by
  simp only [api_chat, hm, hs]
  rw [if_neg hm0, hc]

/-- Witness for C5: message "hello", style 3, capability raising "boom". -/
theorem C5_witness :
    parseMessage (orEmptyObj (some (JValue.jobj
      [("message", JValue.jstr "hello"), ("style", JValue.jint 3)]))) = Except.ok "hello" ∧
    ¬ "hello" = "" ∧
    parseStyle (orEmptyObj (some (JValue.jobj
      [("message", JValue.jstr "hello"), ("style", JValue.jint 3)]))) = Except.ok 3 ∧
    api_chat "gpt-4o-mini"
      (some (JValue.jobj [("message", JValue.jstr "hello"), ("style", JValue.jint 3)]))
      (fun _ _ _ _ => Except.error "boom") = (ChatResult.serverError "boom", 1) :=
  ⟨rfl, by decide, rfl,
    C5_upstream_error_propagation "gpt-4o-mini" _ _ "hello" 3 "boom" rfl (by decide) rfl rfl⟩

/-- C6: for every integer i in [0,10], the tone-table lookup at i hits the
table, and the generated system prompt contains, as literal substrings,
the tone description for i and the fixed guardrail clause forbidding hate
speech, discrimination and incitement to violence. -/
theorem C6_prompt_contains (i : ℤ) (h0 : 0 ≤ i) (h1 : i ≤ 10) :
    tone_table.lookup i = some (tone_lookup i) ∧
    strContains (build_system_prompt i) (tone_lookup i) = true ∧
    strContains (build_system_prompt i) guardrails = true := by
  interval_cases i <;> exact ⟨rfl, by decide, by decide⟩

/-- Witness for C6 at i = 10. -/
theorem C6_witness :
    (0:ℤ) ≤ 10 ∧ (10:ℤ) ≤ 10 ∧
    (tone_table.lookup 10 = some (tone_lookup 10) ∧
     strContains (build_system_prompt 10) (tone_lookup 10) = true ∧
     strContains (build_system_prompt 10) guardrails = true) :=
  ⟨by decide, by decide, C6_prompt_contains 10 (by decide) (by decide)⟩

/-- C7 (amended): on every successful request the response echoes the
temperature and max_tokens actually used in the call together with the
model identifier and the reply, and echoes the intensity as the RAW
parsed style integer — not clamped to [0,10]; it lies in [0,10] only when
the request already did. -/
theorem C7_response_echo (model : String) (body : Option JValue)
    (complete : String → String → ℚ → ℤ → Except String String)
    (m : String) (s : ℤ) (reply : String)
    (hm : parseMessage (orEmptyObj body) = Except.ok m) (hm0 : ¬ m = "")
    (hs : parseStyle (orEmptyObj body) = Except.ok s)
    (hc : complete (build_system_prompt s) m (decoding_params s).temperature
        (decoding_params s).max_tokens = Except.ok reply) :
    api_chat model body complete =
      (ChatResult.ok
        { reply := reply, model := model,
          temperature := (decoding_params s).temperature,
          max_tokens := (decoding_params s).max_tokens,
          style := s }, 1) := by
  simp only [api_chat, hm, hs]
  rw [if_neg hm0, hc]

/-- C7 fails as stated: the successful request with style 99 echoes
style = 99 in the response (line 221 returns the raw parsed style), which
is not an integer in [0,10]. -/
theorem C7_counterexample :
    api_chat "gpt-4o-mini"
      (some (JValue.jobj [("message", JValue.jstr "hi"), ("style", JValue.jint 99)]))
      (fun _ _ _ _ => Except.ok "yo") =
      (ChatResult.ok
        { reply := "yo", model := "gpt-4o-mini",
          temperature := (decoding_params 99).temperature,
          max_tokens := 512, style := 99 }, 1) ∧
    ¬ ((0:ℤ) ≤ 99 ∧ (99:ℤ) ≤ 10) :=
  ⟨rfl, by decide⟩

/-- Witness for C7: message "hey", style 7, successful completion "ok". -/
theorem C7_witness :
    parseMessage (orEmptyObj (some (JValue.jobj
      [("message", JValue.jstr "hey"), ("style", JValue.jint 7)]))) = Except.ok "hey" ∧
    ¬ "hey" = "" ∧
    parseStyle (orEmptyObj (some (JValue.jobj
      [("message", JValue.jstr "hey"), ("style", JValue.jint 7)]))) = Except.ok 7 ∧
    api_chat "gpt-4o-mini"
      (some (JValue.jobj [("message", JValue.jstr "hey"), ("style", JValue.jint 7)]))
      (fun _ _ _ _ => Except.ok "ok") =
      (ChatResult.ok
        { reply := "ok", model := "gpt-4o-mini",
          temperature := (decoding_params 7).temperature,
          max_tokens := (decoding_params 7).max_tokens,
          style := 7 }, 1) :=
  ⟨rfl, by decide, rfl,
    C7_response_echo "gpt-4o-mini" _ _ "hey" 7 "ok" rfl (by decide) rfl rfl⟩

/-- C8: the temperature of `decoding_params` is monotonically
non-decreasing in the intensity; every value lies between 0.20 and 1.00,
the endpoints are attained at clamped intensity 0 and 10, and every value
equals the value at the clamped intensity, which lies in [0,10]. -/
theorem C8_temperature_monotone_range :
    (∀ i j : ℤ, i ≤ j →
      (decoding_params i).temperature ≤ (decoding_params j).temperature) ∧
    (∀ i : ℤ, (20:ℚ)/100 ≤ (decoding_params i).temperature ∧
      (decoding_params i).temperature ≤ (100:ℚ)/100) ∧
    (decoding_params 0).temperature = (20:ℚ)/100 ∧
    (decoding_params 10).temperature = (100:ℚ)/100 ∧
    (∀ i : ℤ, (decoding_params i).temperature = (decoding_params (clampZ i)).temperature ∧
      0 ≤ clampZ i ∧ clampZ i ≤ 10) := by
  refine ⟨?_, ?_, ?_, ?_, ?_⟩
  · intro i j hij
    rw [temperature_eq i, temperature_eq j]
    have hz : (20 + 8 * clampZ i : ℤ) ≤ (20 + 8 * clampZ j : ℤ) := by
      have := clampZ_mono hij; omega
    have hq : ((20 + 8 * clampZ i : ℤ) : ℚ) ≤ ((20 + 8 * clampZ j : ℤ) : ℚ) := by
      exact_mod_cast hz
    linarith
  · intro i
    rw [temperature_eq i]
    have h0 := clampZ_nonneg i
    have h1 := clampZ_le_ten i
    have hc0 : (0:ℚ) ≤ (clampZ i : ℚ) := by exact_mod_cast h0
    have hc1 : (clampZ i : ℚ) ≤ 10 := by exact_mod_cast h1
    constructor <;> · push_cast; linarith
  · rw [temperature_eq 0, show clampZ 0 = 0 from by decide]; norm_num
  · rw [temperature_eq 10, show clampZ 10 = 10 from by decide]; norm_num
  · intro i
    exact ⟨by rw [temperature_eq i, temperature_eq (clampZ i), clampZ_idem],
      clampZ_nonneg i, clampZ_le_ten i⟩

/-- Witness for C8 at i = 0 ≤ j = 1. -/
theorem C8_witness :
    (0:ℤ) ≤ 1 ∧ (decoding_params 0).temperature ≤ (decoding_params 1).temperature :=
  ⟨by decide, C8_temperature_monotone_range.1 0 1 (by decide)⟩

/-- C9: for every integer input, the tone-table lookup at the clamped
intensity hits one of the 11 entries, so the defensive fallback to the
entry for 5 in `tone_table.get(style_intensity, tone_table[5])` is never
taken. -/
theorem C9_tone_lookup_total (i : ℤ) :
    ∃ d, tone_table.lookup (clampZ i) = some d ∧ tone_lookup (clampZ i) = d := by
  have h0 := clampZ_nonneg i
  have h1 := clampZ_le_ten i
  generalize hgen : clampZ i = c at h0 h1 ⊢
  interval_cases c <;> exact ⟨_, rfl, rfl⟩

/-- C10 (amended): a POST body that is absent, not valid JSON, or parses
to a FALSY JSON value is treated as the empty object, so the handler
returns the HTTP 400 validation error "message is required" without
calling the external capability; but a truthy non-object JSON body (for
example a non-empty array) survives `or {}` and then raises an uncaught
AttributeError at `data.get`. -/
theorem C10_body_defaulting :
    (∀ (model : String) (complete : String → String → ℚ → ℤ → Except String String),
      api_chat model none complete = (ChatResult.clientError "message is required", 0)) ∧
    (∀ (model : String) (complete : String → String → ℚ → ℤ → Except String String)
      (v : JValue), v.truthy = false →
      api_chat model (some v) complete = (ChatResult.clientError "message is required", 0)) ∧
    (∀ (model : String) (complete : String → String → ℚ → ℤ → Except String String)
      (v : JValue), v.truthy = true → (∀ fs, v ≠ JValue.jobj fs) →
      api_chat model (some v) complete = (ChatResult.uncaught "AttributeError", 0)) := by
  refine ⟨?_, ?_, ?_⟩
  · intro model complete; rfl
  · intro model complete v hv
    simp only [api_chat, orEmptyObj, pyOr, hv]
    rfl
  · intro model complete v hv hne
    cases v with
    | jnull => simp [JValue.truthy] at hv
    | jbool b =>
      cases b
      · simp [JValue.truthy] at hv
      · rfl
    | jint n =>
      simp [api_chat, orEmptyObj, pyOr, hv, parseMessage, pyGet, Except.bind]
    | jstr s =>
      simp [api_chat, orEmptyObj, pyOr, hv, parseMessage, pyGet, Except.bind]
    | jarr xs =>
      simp [api_chat, orEmptyObj, pyOr, hv, parseMessage, pyGet, Except.bind]
    | jobj fs => exact absurd rfl (hne fs)

/-- C10 fails as stated: the truthy non-object body `[1]` is not treated
as an empty object; `data.get` raises an uncaught AttributeError, so the
handler does not return the 400 validation error. -/
theorem C10_counterexample :
    api_chat "gpt-4o-mini" (some (JValue.jarr [JValue.jint 1]))
      (fun _ _ _ _ => Except.ok "x") = (ChatResult.uncaught "AttributeError", 0) ∧
    (api_chat "gpt-4o-mini" (some (JValue.jarr [JValue.jint 1]))
      (fun _ _ _ _ => Except.ok "x")).1 ≠ ChatResult.clientError "message is required" :=
  ⟨by decide, by decide⟩

/-- Witness for C10 on the falsy body 0. -/
theorem C10_witness :
    JValue.truthy (JValue.jint 0) = false ∧
    api_chat "gpt-4o-mini" (some (JValue.jint 0)) (fun _ _ _ _ => Except.ok "x") =
      (ChatResult.clientError "message is required", 0) :=
  ⟨rfl, C10_body_defaulting.2.1 "gpt-4o-mini" _ _ rfl⟩
